import Mathlib

/-!
Shallow embedding of `dbt/adapters/duckdb/connections.py` (dbt-duckdb):
the credentials dataclass, the cursor wrapper's `execute`, the connection
manager's `__init__`, `open` and `exception_handler`, together with proofs
of the behavioural properties of these operations.

The underlying duckdb engine is external to the repository; it is modelled
as an oracle mapping each SQL text submitted via `execute` to either
success or a `RuntimeError` message, and `duckdb.connect` as an optional
`RuntimeError` message.  The host framework's exception taxonomy
(`dbt.exceptions`) is likewise external: we model the fact, relied on by
the source's `except RuntimeError` clauses, that `RuntimeException` (and
its subclass `FailedToConnectException`) derive from Python's built-in
`RuntimeError`, with `str(e)` carrying the message.
-/

namespace DbtDuckdb

/-- Python exception values relevant to this adapter.
`dbtRuntimeException` is `dbt.exceptions.RuntimeException`,
`failedToConnect` is `dbt.exceptions.FailedToConnectException` (a subclass
of `RuntimeException`), `runtimeError` is the built-in `RuntimeError`
raised by the duckdb engine, and `otherExc` is any other exception class
(identified by its class name). -/
inductive PyExc where
  | runtimeError (msg : String)
  | dbtRuntimeException (msg : String)
  | failedToConnect (msg : String)
  | otherExc (kind : String) (msg : String)
deriving DecidableEq, Repr

/-- `str(e)` of an exception: its message. -/
def PyExc.msg : PyExc → String
  | .runtimeError m => m
  | .dbtRuntimeException m => m
  | .failedToConnect m => m
  | .otherExc _ m => m

/-- `isinstance(e, dbt.exceptions.RuntimeException)`. -/
def PyExc.isDbtRuntimeException : PyExc → Bool
  | .dbtRuntimeException _ => true
  | .failedToConnect _ => true
  | _ => false

/-- `isinstance(e, RuntimeError)`: the built-in class and the dbt
exception classes deriving from it. -/
def PyExc.isRuntimeError : PyExc → Bool
  | .runtimeError _ => true
  | .dbtRuntimeException _ => true
  | .failedToConnect _ => true
  | .otherExc _ _ => false

/-- The `DuckDBCredentials` dataclass, with the source's field defaults. -/
structure DuckDBCredentials where
  database : String := "main"
  schema : String := "main"
  path : String := ":memory:"
  extensions : Option (List String) := none
  s3_region : Option String := none
  s3_access_key_id : Option String := none
  s3_secret_access_key : Option String := none
  s3_session_token : Option String := none
deriving DecidableEq, Repr

/-- `_connection_keys` of the credentials dataclass. -/
def DuckDBCredentials.connection_keys (c : DuckDBCredentials) : List String :=
  [c.database, c.schema, c.path]

/-- Python f-string interpolation of an `Optional[str]` value:
`None` prints as the literal text `None`. -/
def pyStr : Option String → String
  | none => "None"
  | some s => s

/-- The bootstrap statements `open` can submit to the engine handle. -/
inductive Stmt where
  | load (ext : String)
  | setS3Region (v : String)
  | setS3SessionToken (v : String)
  | setS3AccessKeyId (v : String)
  | setS3SecretAccessKey (v : String)
deriving DecidableEq, Repr

/-- The exact SQL text each bootstrap statement interpolates to in the
source (`\x27` is the single-quote character). -/
def Stmt.render : Stmt → String
  | .load e => "LOAD \x27" ++ e ++ "\x27"
  | .setS3Region v => "SET s3_region = \x27" ++ v ++ "\x27"
  | .setS3SessionToken v => "SET s3_session_token = \x27" ++ v ++ "\x27"
  | .setS3AccessKeyId v => "SET s3_access_key_id = \x27" ++ v ++ "\x27"
  | .setS3SecretAccessKey v => "SET s3_secret_access_key = \x27" ++ v ++ "\x27"

/-- The extension-loading loop of `open`: one `LOAD` per configured
extension, in list order. -/
def extensionLoads (c : DuckDBCredentials) : List Stmt :=
  match c.extensions with
  | none => []
  | some exts => exts.map Stmt.load

/-- The message of the `RuntimeException` raised when the S3 credentials
are incomplete. -/
def configErrorMsg : String :=
  "You must specify either s3_session_token or s3_access_key_id and s3_secret_access_key"

/-- The S3 block of `open`: the statements it submits, and the message of
the configuration `RuntimeException` it raises after them (if any).
Mirrors the source: nothing when `s3_region` is `None`; otherwise
`LOAD httpfs` and `SET s3_region`, then the session token if set, else the
access key and the (possibly `None`-interpolated) secret if the key is
set, else the configuration error. -/
def s3Plan (c : DuckDBCredentials) : List Stmt × Option String :=
  match c.s3_region with
  | none => ([], none)
  | some r =>
    match c.s3_session_token with
    | some t => ([Stmt.load "httpfs", Stmt.setS3Region r, Stmt.setS3SessionToken t], none)
    | none =>
      match c.s3_access_key_id with
      | some k =>
        ([Stmt.load "httpfs", Stmt.setS3Region r, Stmt.setS3AccessKeyId k,
          Stmt.setS3SecretAccessKey (pyStr c.s3_secret_access_key)], none)
      | none => ([Stmt.load "httpfs", Stmt.setS3Region r], some configErrorMsg)

/-- All statements `open` submits to the handle, in order. -/
def bootstrapPlan (c : DuckDBCredentials) : List Stmt :=
  extensionLoads c ++ (s3Plan c).1

/-- An engine oracle: for each rendered SQL text submitted through
`h.execute`, either success (`none`) or the message of the `RuntimeError`
it raises. -/
def Engine : Type := String → Option String

/-- Submit statements to the engine one at a time, stopping at the first
`RuntimeError`; returns the successfully executed prefix and the error
message, if any. -/
def runStmts (engine : Engine) : List Stmt → List Stmt × Option String
  | [] => ([], none)
  | s :: rest =>
    match engine s.render with
    | some m => ([], some m)
    | none =>
      let r := runStmts engine rest
      (s :: r.1, r.2)

/-- `dbt.contracts.connection.ConnectionState` (the members this adapter
touches). -/
inductive ConnectionState where
  | INIT
  | OPEN
  | CLOSED
  | FAIL
deriving DecidableEq, Repr

/-- The host's connection object as `open` sees it: its state, its handle
(modelled, when present, as the list of statements executed on it), and
its credentials. -/
structure Connection where
  state : ConnectionState
  handle : Option (List Stmt)
  credentials : DuckDBCredentials
deriving DecidableEq, Repr

/-- The observable outcome of a call to `DuckDBConnectionManager.open`:
the resulting connection, whether `duckdb.connect` was invoked, the
statements successfully executed on the handle in order, and the exception
escaping the call, if any. -/
structure OpenResult where
  conn : Connection
  connectCalled : Bool
  issued : List Stmt
  raised : Option PyExc
deriving DecidableEq, Repr

/-- `DuckDBConnectionManager.open`.  `connectErr` is the engine oracle for
`duckdb.connect` (`some m` when it raises `RuntimeError(m)`), `engine` the
oracle for `h.execute`.  Mirrors the source: an already-open connection is
returned untouched; otherwise the handle is built and the bootstrap plan
executed; any `RuntimeError` in the `try` block — including the
configuration `RuntimeException`, which derives from `RuntimeError` —
resets the handle to `None`, sets the state to `FAIL` and raises
`FailedToConnectException(str(e))`. -/
def openConn (connectErr : Option String) (engine : Engine)
    (connection : Connection) : OpenResult :=
  if connection.state = ConnectionState.OPEN then
    ⟨connection, false, [], none⟩
  else
    match connectErr with
    | some m =>
      ⟨{ connection with handle := none, state := ConnectionState.FAIL },
        true, [], some (PyExc.failedToConnect m)⟩
    | none =>
      match runStmts engine (bootstrapPlan connection.credentials) with
      | (done, some m) =>
        ⟨{ connection with handle := none, state := ConnectionState.FAIL },
          true, done, some (PyExc.failedToConnect m)⟩
      | (done, none) =>
        match (s3Plan connection.credentials).2 with
        | some m =>
          ⟨{ connection with handle := none, state := ConnectionState.FAIL },
            true, done, some (PyExc.failedToConnect m)⟩
        | none =>
          ⟨{ connection with handle := some done, state := ConnectionState.OPEN },
            true, done, none⟩

/-- The outcome of the `exception_handler` context around a statement:
the body succeeded, the exception was logged and swallowed, or an
exception escapes the scope (with the `__cause__` it was chained to by
`raise ... from exc`, if any). -/
inductive HandlerResult where
  | ok
  | suppressed (logged : String)
  | raised (e : PyExc) (cause : Option PyExc)
deriving DecidableEq, Repr

/-- `DuckDBConnectionManager.exception_handler`: re-raise
`dbt.exceptions.RuntimeException` unchanged, log and swallow any other
`RuntimeError`, and re-wrap any other exception as
`RuntimeException(str(exc))` chained `from exc`.  The clauses are tried in
source order, so the `RuntimeException` clause wins over the broader
`RuntimeError` clause. -/
def exceptionHandlerRun (body : Except PyExc Unit) : HandlerResult :=
  match body with
  | .ok _ => .ok
  | .error e =>
    if e.isDbtRuntimeException then .raised e none
    else if e.isRuntimeError then .suppressed e.msg
    else .raised (PyExc.dbtRuntimeException e.msg) (some e)

/-- The message of the `RuntimeException` raised by
`DuckDBConnectionManager.__init__` when more than one thread is
configured. -/
def threadErrorMsg : String := "dbt-duckdb only supports 1 thread at this time"

/-- `DuckDBConnectionManager.__init__`: after the superclass constructor,
raise `RuntimeException` when the profile configures more than one
thread.  No connection is attempted here; `open` is a separate call. -/
def managerInit (threads : Nat) : Option PyExc :=
  if 1 < threads then some (PyExc.dbtRuntimeException threadErrorMsg)
  else none

/-- The outcome of the underlying duckdb cursor's `execute`: a successful
(opaque) result, or a raised exception. -/
inductive ExecOutcome where
  | ok (result : Nat)
  | exn (e : PyExc)
deriving Repr

/-- The underlying duckdb cursor, as the wrapper sees it: its
non-parameterized and parameterized `execute` paths. -/
structure UnderlyingCursor where
  execPlain : String → ExecOutcome
  execBound : String → List String → ExecOutcome

/-- `DuckDBCursorWrapper.execute`: dispatch on whether bindings are
provided, pass the outcome through unchanged, except that a raised
`RuntimeError` is re-raised as `RuntimeException(str(e))`. -/
def cursorExecute (cur : UnderlyingCursor) (sql : String)
    (bindings : Option (List String)) : ExecOutcome :=
  match (match bindings with
         | none => cur.execPlain sql
         | some b => cur.execBound sql b) with
  | .ok r => .ok r
  | .exn e =>
    if e.isRuntimeError then .exn (PyExc.dbtRuntimeException e.msg)
    else .exn e

/-! ### Helper lemmas about the bootstrap execution -/

/-- When the engine accepts every statement, `runStmts` executes the whole
list and reports no error. -/
theorem runStmts_allOk (engine : Engine) (heng : ∀ s, engine s = none) :
    ∀ l : List Stmt, runStmts engine l = (l, none) := by
  intro l
  induction l with
  | nil => rfl
  | cons s rest ih => simp [runStmts, heng, ih]

/-- When the engine accepts every statement of `pre` and rejects `s`,
`runStmts` executes exactly `pre` and stops with the error of `s`. -/
theorem runStmts_failAt (engine : Engine) (s : Stmt) (m : String) :
    ∀ pre : List Stmt, (∀ t ∈ pre, engine t.render = none) →
      engine s.render = some m →
      ∀ post, runStmts engine (pre ++ s :: post) = (pre, some m) := by
  intro pre
  induction pre with
  | nil =>
    intro _ hs post
    simp [runStmts, hs]
  | cons t rest ih =>
    intro hpre hs post
    have ht : engine t.render = none := hpre t (List.mem_cons_self t rest)
    have hrest : ∀ u ∈ rest, engine u.render = none :=
      fun u hu => hpre u (List.mem_cons_of_mem t hu)
    simp [runStmts, ht, ih hrest hs post]

/-- Every statement of the extension-loading loop is a `LOAD`. -/
theorem extensionLoads_shape (c : DuckDBCredentials) :
    ∀ t ∈ extensionLoads c, ∃ e, t = Stmt.load e := by
  intro t ht
  unfold extensionLoads at ht
  cases hx : c.extensions with
  | none => simp [hx] at ht
  | some exts =>
    rw [hx] at ht
    simp only [List.mem_map] at ht
    obtain ⟨e, _, he⟩ := ht
    exact ⟨e, he.symm⟩

/-- `open` on a non-open connection, with a working engine and complete S3
configuration: the handle is built, the whole bootstrap plan executes, and
the connection comes back open. -/
theorem openConn_not_open_ok (engine : Engine) (conn : Connection)
    (hstate : ¬ conn.state = ConnectionState.OPEN)
    (heng : ∀ s, engine s = none)
    (hcfg : (s3Plan conn.credentials).2 = none) :
    openConn none engine conn =
      ⟨{ conn with handle := some (bootstrapPlan conn.credentials), state := ConnectionState.OPEN },
        true, bootstrapPlan conn.credentials, none⟩ := by
  simp only [openConn, if_neg hstate]
  rw [runStmts_allOk engine heng, hcfg]

/-- `open` on a non-open connection, with a working engine but an
incomplete S3 configuration: the whole plan executes, then the
configuration `RuntimeException` is caught by the `except RuntimeError`
clause, the handle is dropped, the state set to `FAIL`, and
`FailedToConnectException` raised with the same message. -/
theorem openConn_not_open_cfgFail (engine : Engine) (conn : Connection)
    (m : String)
    (hstate : ¬ conn.state = ConnectionState.OPEN)
    (heng : ∀ s, engine s = none)
    (hcfg : (s3Plan conn.credentials).2 = some m) :
    openConn none engine conn =
      ⟨{ conn with handle := none, state := ConnectionState.FAIL },
        true, bootstrapPlan conn.credentials, some (PyExc.failedToConnect m)⟩ := by
  simp only [openConn, if_neg hstate]
  rw [runStmts_allOk engine heng, hcfg]

/-- `open` on a non-open connection when the engine rejects a statement of
the plan: the successful prefix stays executed, the handle is dropped, the
state set to `FAIL`, and `FailedToConnectException` raised with the
engine's message. -/
theorem openConn_not_open_execFail (engine : Engine) (conn : Connection)
    (pre post : List Stmt) (s : Stmt) (m : String)
    (hstate : ¬ conn.state = ConnectionState.OPEN)
    (hplan : bootstrapPlan conn.credentials = pre ++ s :: post)
    (hpre : ∀ t ∈ pre, engine t.render = none)
    (hs : engine s.render = some m) :
    openConn none engine conn =
      ⟨{ conn with handle := none, state := ConnectionState.FAIL },
        true, pre, some (PyExc.failedToConnect m)⟩ := by
  simp only [openConn, if_neg hstate]
  rw [hplan, runStmts_failAt engine s m pre hpre hs post]

/-! ### Claim theorems -/

/-- C1 counterexample: with `s3_region` and `s3_access_key_id` set but
`s3_secret_access_key` and `s3_session_token` unset — so no *complete*
access-key/secret pair — `open` does not raise the configuration error:
it completes with the connection open. -/
theorem open_incomplete_pair_no_error :
    (openConn none (fun _ => none)
      ⟨ConnectionState.INIT, none,
        { s3_region := some "us-east-1", s3_access_key_id := some "AKIA" }⟩).raised = none ∧
    (openConn none (fun _ => none)
      ⟨ConnectionState.INIT, none,
        { s3_region := some "us-east-1", s3_access_key_id := some "AKIA" }⟩).conn.state
      = ConnectionState.OPEN := by
  constructor <;> rfl

/-- C1 (amended): for every credentials descriptor with `s3_region` set
and with neither `s3_session_token` nor `s3_access_key_id` set, calling
`open` on an unopened connection raises the configuration error naming
the missing requirement (surfaced as `FailedToConnectException` carrying
that message), sets the connection state to failed, and sets the handle
to `None`. -/
theorem open_missing_credentials_fails (engine : Engine) (conn : Connection)
    (r : String)
    (hstate : ¬ conn.state = ConnectionState.OPEN)
    (heng : ∀ s, engine s = none)
    (hr : conn.credentials.s3_region = some r)
    (ht : conn.credentials.s3_session_token = none)
    (hk : conn.credentials.s3_access_key_id = none) :
    (openConn none engine conn).raised = some (PyExc.failedToConnect configErrorMsg) ∧
    (openConn none engine conn).conn.state = ConnectionState.FAIL ∧
    (openConn none engine conn).conn.handle = none := by
  have hcfg : (s3Plan conn.credentials).2 = some configErrorMsg := by
    simp [s3Plan, hr, ht, hk]
  rw [openConn_not_open_cfgFail engine conn configErrorMsg hstate heng hcfg]
  exact ⟨rfl, rfl, rfl⟩

/-- C1 witness: the amended theorem at a concrete descriptor with only
the region set. -/
theorem open_missing_credentials_fails_witness :
    (openConn none (fun _ => none)
      ⟨ConnectionState.INIT, none, { s3_region := some "eu-west-1" }⟩).raised
      = some (PyExc.failedToConnect configErrorMsg) ∧
    (openConn none (fun _ => none)
      ⟨ConnectionState.INIT, none, { s3_region := some "eu-west-1" }⟩).conn.state
      = ConnectionState.FAIL ∧
    (openConn none (fun _ => none)
      ⟨ConnectionState.INIT, none, { s3_region := some "eu-west-1" }⟩).conn.handle
      = none :=
  open_missing_credentials_fails (fun _ => none)
    ⟨ConnectionState.INIT, none, { s3_region := some "eu-west-1" }⟩
    "eu-west-1" (by decide) (fun _ => rfl) rfl rfl rfl

/-- C2: inside the `exception_handler` scope, a `dbt` `RuntimeException`
(including its `FailedToConnectException` subclass) propagates unchanged;
a low-level `RuntimeError` is logged and fully suppressed; any other
exception escapes re-wrapped as `RuntimeException` with the original
message preserved and chained to the original cause. -/
theorem exception_handler_policy (m kind : String) :
    exceptionHandlerRun (Except.error (PyExc.dbtRuntimeException m)) =
        HandlerResult.raised (PyExc.dbtRuntimeException m) none ∧
    exceptionHandlerRun (Except.error (PyExc.failedToConnect m)) =
        HandlerResult.raised (PyExc.failedToConnect m) none ∧
    exceptionHandlerRun (Except.error (PyExc.runtimeError m)) =
        HandlerResult.suppressed m ∧
    exceptionHandlerRun (Except.error (PyExc.otherExc kind m)) =
        HandlerResult.raised (PyExc.dbtRuntimeException m)
          (some (PyExc.otherExc kind m)) :=
  ⟨rfl, rfl, rfl, rfl⟩

/-- C6: calling `open` on an already-open connection is idempotent: the
same connection comes straight back, still open, with no engine handle
constructed and no bootstrap statement issued. -/
theorem open_idempotent_when_open (ce : Option String) (engine : Engine)
    (conn : Connection) (h : conn.state = ConnectionState.OPEN) :
    openConn ce engine conn = ⟨conn, false, [], none⟩ := by
  simp [openConn, h]

/-- C6 witness: the theorem at a concrete open connection. -/
theorem open_idempotent_when_open_witness :
    openConn none (fun _ => none)
        ⟨ConnectionState.OPEN, some [], {}⟩ =
      ⟨⟨ConnectionState.OPEN, some [], {}⟩, false, [], none⟩ :=
  open_idempotent_when_open none (fun _ => none)
    ⟨ConnectionState.OPEN, some [], {}⟩ rfl

/-- C7: constructing the manager with a worker-thread count greater than 1
raises the fatal `RuntimeException` immediately (no connection attempt is
part of `__init__`); a count of 1 or less constructs without raising. -/
theorem manager_thread_limit (threads : Nat) :
    (1 < threads →
        managerInit threads = some (PyExc.dbtRuntimeException threadErrorMsg)) ∧
    (threads ≤ 1 → managerInit threads = none) := by
  constructor
  · intro h
    simp [managerInit, h]
  · intro h
    simp [managerInit, Nat.not_lt.mpr h]

/-- C7 witness: the theorem at thread counts 2 and 1. -/
theorem manager_thread_limit_witness :
    managerInit 2 = some (PyExc.dbtRuntimeException threadErrorMsg) ∧
    managerInit 1 = none :=
  ⟨(manager_thread_limit 2).1 (by decide), (manager_thread_limit 1).2 (by decide)⟩

/-- C3: with `s3_region` and `s3_session_token` set, the bootstrap issues
exactly `LOAD 'httpfs'`, `SET s3_region = '<region>'`,
`SET s3_session_token = '<token>'` in that order after the extension
loads, and never issues a `SET s3_access_key_id` or
`SET s3_secret_access_key` statement, even when those fields are set. -/
theorem open_session_token_precedence (engine : Engine) (conn : Connection)
    (r t : String)
    (hstate : ¬ conn.state = ConnectionState.OPEN)
    (heng : ∀ s, engine s = none)
    (hr : conn.credentials.s3_region = some r)
    (ht : conn.credentials.s3_session_token = some t) :
    (openConn none engine conn).issued =
      extensionLoads conn.credentials ++
        [Stmt.load "httpfs", Stmt.setS3Region r, Stmt.setS3SessionToken t] ∧
    (openConn none engine conn).issued.map Stmt.render =
      (extensionLoads conn.credentials).map Stmt.render ++
        ["LOAD \x27httpfs\x27", "SET s3_region = \x27" ++ r ++ "\x27",
         "SET s3_session_token = \x27" ++ t ++ "\x27"] ∧
    (∀ k, Stmt.setS3AccessKeyId k ∉ (openConn none engine conn).issued) ∧
    (∀ v, Stmt.setS3SecretAccessKey v ∉ (openConn none engine conn).issued) := by
  have hplan : bootstrapPlan conn.credentials =
      extensionLoads conn.credentials ++
        [Stmt.load "httpfs", Stmt.setS3Region r, Stmt.setS3SessionToken t] := by
    simp [bootstrapPlan, s3Plan, hr, ht]
  have hcfg : (s3Plan conn.credentials).2 = none := by
    simp [s3Plan, hr, ht]
  rw [openConn_not_open_ok engine conn hstate heng hcfg]
  refine ⟨hplan, ?_, ?_, ?_⟩
  · rw [hplan]
    simp [Stmt.render]
  · intro k hk
    rw [hplan] at hk
    rcases List.mem_append.1 hk with hmem | hmem
    · obtain ⟨e, he⟩ := extensionLoads_shape conn.credentials _ hmem
      exact Stmt.noConfusion he
    · simp at hmem
  · intro v hv
    rw [hplan] at hv
    rcases List.mem_append.1 hv with hmem | hmem
    · obtain ⟨e, he⟩ := extensionLoads_shape conn.credentials _ hmem
      exact Stmt.noConfusion he
    · simp at hmem

/-- C3 witness: the theorem at a concrete descriptor that also has the
access key and secret set, showing they are not issued. -/
theorem open_session_token_precedence_witness :
    (openConn none (fun _ => none)
      ⟨ConnectionState.INIT, none,
        { extensions := some ["json"], s3_region := some "us-east-1",
          s3_access_key_id := some "AKIA", s3_secret_access_key := some "SECRET",
          s3_session_token := some "TOK" }⟩).issued =
      [Stmt.load "json", Stmt.load "httpfs", Stmt.setS3Region "us-east-1",
        Stmt.setS3SessionToken "TOK"] ∧
    Stmt.setS3AccessKeyId "AKIA" ∉
      (openConn none (fun _ => none)
        ⟨ConnectionState.INIT, none,
          { extensions := some ["json"], s3_region := some "us-east-1",
            s3_access_key_id := some "AKIA", s3_secret_access_key := some "SECRET",
            s3_session_token := some "TOK" }⟩).issued ∧
    Stmt.setS3SecretAccessKey "SECRET" ∉
      (openConn none (fun _ => none)
        ⟨ConnectionState.INIT, none,
          { extensions := some ["json"], s3_region := some "us-east-1",
            s3_access_key_id := some "AKIA", s3_secret_access_key := some "SECRET",
            s3_session_token := some "TOK" }⟩).issued :=
  ⟨(open_session_token_precedence (fun _ => none) _ "us-east-1" "TOK"
      (by decide) (fun _ => rfl) rfl rfl).1,
   (open_session_token_precedence (fun _ => none) _ "us-east-1" "TOK"
      (by decide) (fun _ => rfl) rfl rfl).2.2.1 "AKIA",
   (open_session_token_precedence (fun _ => none) _ "us-east-1" "TOK"
      (by decide) (fun _ => rfl) rfl rfl).2.2.2 "SECRET"⟩

/-- C4 counterexample: with `s3_region` unset but `httpfs` configured as
an ordinary extension, `open` does issue `LOAD 'httpfs'` (as the
extension load), contradicting the claim that it is never issued. -/
theorem open_no_region_issues_httpfs_load :
    (openConn none (fun _ => none)
      ⟨ConnectionState.INIT, none, { extensions := some ["httpfs"] }⟩).issued
      = [Stmt.load "httpfs"] ∧
    Stmt.render (Stmt.load "httpfs") = "LOAD \x27httpfs\x27" := by
  constructor <;> rfl

/-- C4 (amended): with `s3_region` unset, `open` never issues any
`SET s3_*` statement; the only statements issued are one
`LOAD '<extension>'` per configured extension, in list order (so
`LOAD 'httpfs'` appears only when `httpfs` is itself a configured
extension). -/
theorem open_no_region_only_extension_loads (engine : Engine)
    (conn : Connection)
    (hstate : ¬ conn.state = ConnectionState.OPEN)
    (heng : ∀ s, engine s = none)
    (hr : conn.credentials.s3_region = none) :
    (∀ exts, conn.credentials.extensions = some exts →
        (openConn none engine conn).issued = exts.map Stmt.load) ∧
    (conn.credentials.extensions = none → (openConn none engine conn).issued = []) ∧
    (∀ t ∈ (openConn none engine conn).issued, ∃ e, t = Stmt.load e) := by
  have hcfg : (s3Plan conn.credentials).2 = none := by
    simp [s3Plan, hr]
  have hplan : bootstrapPlan conn.credentials = extensionLoads conn.credentials := by
    simp [bootstrapPlan, s3Plan, hr]
  rw [openConn_not_open_ok engine conn hstate heng hcfg]
  refine ⟨?_, ?_, ?_⟩
  · intro exts hx
    rw [hplan]
    simp [extensionLoads, hx]
  · intro hx
    rw [hplan]
    simp [extensionLoads, hx]
  · intro t ht
    rw [hplan] at ht
    exact extensionLoads_shape conn.credentials t ht

/-- C4 witness: the amended theorem at a concrete descriptor with two
extensions and no region. -/
theorem open_no_region_only_extension_loads_witness :
    (openConn none (fun _ => none)
      ⟨ConnectionState.INIT, none, { extensions := some ["json", "parquet"] }⟩).issued
      = [Stmt.load "json", Stmt.load "parquet"] :=
  (open_no_region_only_extension_loads (fun _ => none)
      ⟨ConnectionState.INIT, none, { extensions := some ["json", "parquet"] }⟩
      (by decide) (fun _ => rfl) rfl).1 ["json", "parquet"] rfl

/-- C5: when the engine raises a `RuntimeError` on a statement of the
bootstrap plan (or already at `duckdb.connect`), `open` sets the state to
failed, drops the handle, and raises `FailedToConnectException` carrying
the original message; the statements that succeeded before the failure
stay executed — nothing is rolled back. -/
theorem open_bootstrap_failure (engine : Engine) (conn : Connection)
    (pre post : List Stmt) (s : Stmt) (m : String)
    (hstate : ¬ conn.state = ConnectionState.OPEN)
    (hplan : bootstrapPlan conn.credentials = pre ++ s :: post)
    (hpre : ∀ t ∈ pre, engine t.render = none)
    (hs : engine s.render = some m) :
    (openConn none engine conn).conn.state = ConnectionState.FAIL ∧
    (openConn none engine conn).conn.handle = none ∧
    (openConn none engine conn).raised = some (PyExc.failedToConnect m) ∧
    (openConn none engine conn).issued = pre ∧
    (∀ m2, (openConn (some m2) engine conn).conn.state = ConnectionState.FAIL ∧
      (openConn (some m2) engine conn).conn.handle = none ∧
      (openConn (some m2) engine conn).raised = some (PyExc.failedToConnect m2)) := by
  rw [openConn_not_open_execFail engine conn pre post s m hstate hplan hpre hs]
  refine ⟨rfl, rfl, rfl, rfl, ?_⟩
  intro m2
  simp [openConn, if_neg hstate]

/-- C5 witness: a two-extension plan whose second load fails: the first
load stays executed, the state is failed, the handle dropped, and the
engine's message surfaced. -/
theorem open_bootstrap_failure_witness :
    (openConn none
        (fun q => if q = "LOAD \x27bad\x27" then some "boom" else none)
        ⟨ConnectionState.INIT, none, { extensions := some ["json", "bad"] }⟩).conn.state
      = ConnectionState.FAIL ∧
    (openConn none
        (fun q => if q = "LOAD \x27bad\x27" then some "boom" else none)
        ⟨ConnectionState.INIT, none, { extensions := some ["json", "bad"] }⟩).raised
      = some (PyExc.failedToConnect "boom") ∧
    (openConn none
        (fun q => if q = "LOAD \x27bad\x27" then some "boom" else none)
        ⟨ConnectionState.INIT, none, { extensions := some ["json", "bad"] }⟩).issued
      = [Stmt.load "json"] :=
  have h := open_bootstrap_failure
    (fun q => if q = "LOAD \x27bad\x27" then some "boom" else none)
    ⟨ConnectionState.INIT, none, { extensions := some ["json", "bad"] }⟩
    [Stmt.load "json"] [] (Stmt.load "bad") "boom"
    (by decide) rfl (by decide) (by decide)
  ⟨h.1, h.2.2.1, h.2.2.2.1⟩

/-- C8: the cursor wrapper's `execute` dispatches to the underlying
non-parameterized path when bindings are `None` and the parameterized
path otherwise, returning a successful result unchanged; a `RuntimeError`
raised by the underlying `execute` is re-raised as `RuntimeException`
carrying the original message. -/
theorem cursor_execute_policy (cur : UnderlyingCursor) (sql : String)
    (b : List String) (r : Nat) (m : String) :
    (cur.execPlain sql = ExecOutcome.ok r →
        cursorExecute cur sql none = ExecOutcome.ok r) ∧
    (cur.execBound sql b = ExecOutcome.ok r →
        cursorExecute cur sql (some b) = ExecOutcome.ok r) ∧
    (cur.execPlain sql = ExecOutcome.exn (PyExc.runtimeError m) →
        cursorExecute cur sql none = ExecOutcome.exn (PyExc.dbtRuntimeException m)) ∧
    (cur.execBound sql b = ExecOutcome.exn (PyExc.runtimeError m) →
        cursorExecute cur sql (some b) = ExecOutcome.exn (PyExc.dbtRuntimeException m)) := by
  refine ⟨?_, ?_, ?_, ?_⟩ <;> intro h <;>
    simp [cursorExecute, h, PyExc.isRuntimeError, PyExc.msg]

/-- C8 witness: the theorem at a concrete underlying cursor whose plain
path succeeds and whose bound path raises a `RuntimeError`. -/
theorem cursor_execute_policy_witness :
    cursorExecute
        ⟨fun _ => ExecOutcome.ok 7,
          fun _ _ => ExecOutcome.exn (PyExc.runtimeError "boom")⟩
        "SELECT 1" none = ExecOutcome.ok 7 ∧
    cursorExecute
        ⟨fun _ => ExecOutcome.ok 7,
          fun _ _ => ExecOutcome.exn (PyExc.runtimeError "boom")⟩
        "SELECT 1" (some ["x"])
      = ExecOutcome.exn (PyExc.dbtRuntimeException "boom") :=
  ⟨(cursor_execute_policy
      ⟨fun _ => ExecOutcome.ok 7,
        fun _ _ => ExecOutcome.exn (PyExc.runtimeError "boom")⟩
      "SELECT 1" ["x"] 7 "boom").1 rfl,
   (cursor_execute_policy
      ⟨fun _ => ExecOutcome.ok 7,
        fun _ _ => ExecOutcome.exn (PyExc.runtimeError "boom")⟩
      "SELECT 1" ["x"] 7 "boom").2.2.2 rfl⟩

/-- C9: with `s3_region` set, `s3_session_token` unset,
`s3_access_key_id` set and `s3_secret_access_key` unset, `open` raises no
configuration error: it issues `SET s3_access_key_id = '<key>'` followed
by `SET s3_secret_access_key = 'None'` (the absent secret interpolated as
the literal text `None`) and, absent engine failures, completes with the
state open. -/
theorem open_key_without_secret (engine : Engine) (conn : Connection)
    (r k : String)
    (hstate : ¬ conn.state = ConnectionState.OPEN)
    (heng : ∀ s, engine s = none)
    (hr : conn.credentials.s3_region = some r)
    (ht : conn.credentials.s3_session_token = none)
    (hk : conn.credentials.s3_access_key_id = some k)
    (hsec : conn.credentials.s3_secret_access_key = none) :
    (openConn none engine conn).raised = none ∧
    (openConn none engine conn).conn.state = ConnectionState.OPEN ∧
    (openConn none engine conn).issued =
      extensionLoads conn.credentials ++
        [Stmt.load "httpfs", Stmt.setS3Region r, Stmt.setS3AccessKeyId k,
          Stmt.setS3SecretAccessKey "None"] ∧
    Stmt.render (Stmt.setS3SecretAccessKey "None")
      = "SET s3_secret_access_key = \x27None\x27" := by
  have hcfg : (s3Plan conn.credentials).2 = none := by
    simp [s3Plan, hr, ht, hk]
  have hplan : bootstrapPlan conn.credentials =
      extensionLoads conn.credentials ++
        [Stmt.load "httpfs", Stmt.setS3Region r, Stmt.setS3AccessKeyId k,
          Stmt.setS3SecretAccessKey "None"] := by
    simp [bootstrapPlan, s3Plan, hr, ht, hk, hsec, pyStr]
  rw [openConn_not_open_ok engine conn hstate heng hcfg]
  exact ⟨rfl, rfl, hplan, rfl⟩

/-- C9 witness: the theorem at a concrete descriptor with a key and no
secret. -/
theorem open_key_without_secret_witness :
    (openConn none (fun _ => none)
      ⟨ConnectionState.INIT, none,
        { s3_region := some "us-east-1", s3_access_key_id := some "AKIA" }⟩).raised
      = none ∧
    (openConn none (fun _ => none)
      ⟨ConnectionState.INIT, none,
        { s3_region := some "us-east-1", s3_access_key_id := some "AKIA" }⟩).issued
      = [Stmt.load "httpfs", Stmt.setS3Region "us-east-1",
          Stmt.setS3AccessKeyId "AKIA", Stmt.setS3SecretAccessKey "None"] :=
  have h := open_key_without_secret (fun _ => none)
    ⟨ConnectionState.INIT, none,
      { s3_region := some "us-east-1", s3_access_key_id := some "AKIA" }⟩
    "us-east-1" "AKIA" (by decide) (fun _ => rfl) rfl rfl rfl rfl
  ⟨h.1, h.2.2.1⟩

/-- C10: the short-circuit of `open` applies only to the exactly-open
state: from a failed, closed or uninitialized state, `open` invokes
`duckdb.connect` again (a fresh handle) and re-runs the full bootstrap
plan. -/
theorem open_reconnects_when_not_open (engine : Engine) (conn : Connection)
    (hstate : conn.state = ConnectionState.INIT ∨
      conn.state = ConnectionState.FAIL ∨ conn.state = ConnectionState.CLOSED)
    (heng : ∀ s, engine s = none) :
    (openConn none engine conn).connectCalled = true ∧
    (openConn none engine conn).issued = bootstrapPlan conn.credentials := by
  have hne : ¬ conn.state = ConnectionState.OPEN := by
    rcases hstate with h | h | h <;> rw [h] <;> intro hc <;> exact ConnectionState.noConfusion hc
  cases hcfg : (s3Plan conn.credentials).2 with
  | none =>
    rw [openConn_not_open_ok engine conn hne heng hcfg]
    exact ⟨rfl, rfl⟩
  | some m =>
    rw [openConn_not_open_cfgFail engine conn m hne heng hcfg]
    exact ⟨rfl, rfl⟩

/-- C10 witness: the theorem at a concrete connection in the failed
state, which re-runs its one-extension bootstrap. -/
theorem open_reconnects_when_not_open_witness :
    (openConn none (fun _ => none)
      ⟨ConnectionState.FAIL, none, { extensions := some ["json"] }⟩).connectCalled
      = true ∧
    (openConn none (fun _ => none)
      ⟨ConnectionState.FAIL, none, { extensions := some ["json"] }⟩).issued
      = bootstrapPlan { extensions := some ["json"] } :=
  open_reconnects_when_not_open (fun _ => none)
    ⟨ConnectionState.FAIL, none, { extensions := some ["json"] }⟩
    (Or.inr (Or.inl rfl)) (fun _ => rfl)

end DbtDuckdb
